import Mathlib

set_option maxRecDepth 8000

/-!
Verification development for the per-turn orchestration pipeline of
`src/main.py` (an Ollama-backed chat front-end with optional web tools).

The embedding below follows the source faithfully:
* `Message` models the Python message dicts (an absent `thinking` key is
  `none`);
* `Client` models the Ollama client object: its `web_search` and `web_fetch`
  methods plus any further attributes (`otherAttrs`, e.g. `chat`), since the
  source resolves tool names with `getattr(client, function_name, None)`;
* a tool capability (`ToolFn`) maps the call's keyword arguments to either
  `Except.ok (str(result))` or `Except.error (str(e))` for a raised exception,
  the only two observations the source makes of an invocation;
* `process_ai_response` mirrors `process_ai_response` (lines 55-121): the
  gateway call is the abstract `Gateway` argument, applied to exactly the
  model name, composed messages, tool list and think flag the source passes;
* `run_turn` mirrors the chat-input branch of `main` (lines 178-190): the
  user message is appended before the AI response is processed.
-/

/-- Keyword arguments of a model-requested tool call
(`tool_call.function.arguments`, line 98); values are modelled opaquely as
strings. -/
abbrev Args := List (String × String)

/-- An invocable client capability. The success value models `str(result)`
(line 100) and the error value models `str(e)` for a raised exception
(line 107). -/
abbrev ToolFn := Args → Except String String

/-- A chat message dict. A missing `thinking` key is modelled as `none`. -/
structure Message where
  role : String
  content : String
  thinking : Option String
deriving Repr, DecidableEq

/-- The `function` field of a model-produced tool call. -/
structure ToolFunction where
  name : String
  arguments : Args
deriving Repr, DecidableEq

/-- A model-produced tool call (`response.message.tool_calls` entry). -/
structure ToolCall where
  function : ToolFunction
deriving Repr, DecidableEq

/-- The `response.message` object returned by the gateway chat call:
`content` and `thinking` may be `None`; a missing or `None` tool-call list is
modelled as `[]` (both are falsy at line 89, exactly like the empty list). -/
structure RespMessage where
  content : Option String
  thinking : Option String
  tool_calls : List ToolCall
deriving Repr, DecidableEq

/-- The Ollama client object. `web_search` and `web_fetch` are the two web
capabilities (line 38); `otherAttrs` models its remaining attributes
(e.g. `chat`), looked up by name by `getattr`. -/
structure Client where
  web_search : ToolFn
  web_fetch : ToolFn
  otherAttrs : List (String × ToolFn)

/-- The remote chat call (line 74): model name, messages, tools, think flag.
`Except.error e` models a raised exception with `str(e) = e`. -/
abbrev Gateway := String → List Message → List ToolFn → Bool → Except String RespMessage

/-- `getattr(client, name, None)` (line 94): the fixed method attributes
`web_search` and `web_fetch`, then any further attribute of the object. -/
def Client.getattr (c : Client) (name : String) : Option ToolFn :=
  if name = "web_search" then some c.web_search
  else if name = "web_fetch" then some c.web_fetch
  else c.otherAttrs.lookup name

/-- Python truthiness of an optional string (`None` and `""` are falsy). -/
def optTruthy : Option String → Bool
  | none => false
  | some s => s != ""

/-- `response.message.content or ""` (line 82): `None` (and the falsy `""`)
become `""`. -/
def orEmpty : Option String → String
  | none => ""
  | some s => s

/-- `get_available_tools` (lines 34-40): the tool list passed to the gateway. -/
def get_available_tools (client : Client) (enable_web_search : Bool) : List ToolFn :=
  if enable_web_search then [client.web_search, client.web_fetch] else []

/-- The synthesized system-message content (lines 59-63), parametrised by the
formatted current time. -/
def system_content (current_time : String) : String :=
  "Current date and time: " ++ current_time ++
    ". When users ask for \x27latest\x27, \x27recent\x27, \x27today\x27, or \x27current\x27 information, use web search with appropriate date context."

/-- The per-request system message (lines 60-63); it is built fresh each turn
and never appended to the stored history. -/
def system_message (current_time : String) : Message :=
  { role := "system", content := system_content current_time, thinking := none }

/-- `api_messages` (lines 65-67): the system message followed by every stored
message projected to its `role` and `content` fields only. -/
def api_messages (current_time : String) (history : List Message) : List Message :=
  [system_message current_time] ++
    history.map (fun msg => { role := msg.role, content := msg.content, thinking := none })

/-- Formatting of one successful tool result (lines 100-104): verbatim under
the `**<name>**:` header when at most 2000 characters, otherwise the first
2000 characters followed by the truncation marker. -/
def format_result (function_name : String) (result_str : String) : String :=
  if result_str.length > 2000 then
    "**" ++ function_name ++ "**:\n" ++ result_str.take 2000 ++
      "...\n\n*[Result truncated - showing first 2000 characters]*"
  else
    "**" ++ function_name ++ "**:\n" ++ result_str

/-- One iteration of the dispatch loop (lines 92-107): resolve the name on the
client; if it resolves, invoke it and format success or the caught exception;
if it does not resolve, produce nothing (the source has no else branch). -/
def dispatch_call (client : Client) (tc : ToolCall) : Option String :=
  match Client.getattr client tc.function.name with
  | some function_to_call =>
    match function_to_call tc.function.arguments with
    | Except.ok result => some (format_result tc.function.name result)
    | Except.error e => some ("**" ++ tc.function.name ++ " Error**: " ++ e)
  | none => none

/-- The `tool_results` list accumulated by the loop (lines 90-107). -/
def tool_results (client : Client) (tcs : List ToolCall) : List String :=
  tcs.filterMap (dispatch_call client)

/-- Lines 109-110: when the results list is non-empty, append the divider, the
heading and the `---`-joined blocks to the assistant content. -/
def merge_tool_results (content : String) (results : List String) : String :=
  if results = [] then content
  else content ++ "\n\n---\n\n**🔍 Tool Results:**\n\n" ++
    String.intercalate "\n\n---\n\n" results

/-- Construction of the assistant message dict (lines 81-110): base content
from `content or ""`, `thinking` kept only when truthy and requested, tool
results merged only when the response carried tool calls. -/
def build_assistant_message (client : Client) (resp : RespMessage)
    (show_thinking : Bool) : Message :=
  let base := orEmpty resp.content
  let thinking := if optTruthy resp.thinking && show_thinking then resp.thinking else none
  let content :=
    if resp.tool_calls = [] then base
    else merge_tool_results base (tool_results client resp.tool_calls)
  { role := "assistant", content := content, thinking := thinking }

/-- `process_ai_response` (lines 55-121) on an explicit history (the session
state at call time, which already ends with the just-submitted user message).
Returns the new history and the reported error, if any: on gateway success the
assistant message is appended and no error is reported (lines 81-118); on a
raised exception nothing is appended and the `st.error` text is reported
(lines 120-121). -/
def process_ai_response (client : Client) (gateway : Gateway) (current_time : String)
    (history : List Message) (enable_web_search show_thinking : Bool) :
    List Message × Option String :=
  match gateway "qwen3:4b" (api_messages current_time history)
      (get_available_tools client enable_web_search) show_thinking with
  | Except.ok resp =>
      (history ++ [build_assistant_message client resp show_thinking], none)
  | Except.error e => (history, some ("Error getting AI response: " ++ e))

/-- The chat-input branch of `main` (lines 178-190): the user message is
appended immediately on submission, then the AI response is processed. -/
def run_turn (client : Client) (gateway : Gateway) (current_time : String)
    (history : List Message) (user_input : String)
    (enable_web_search show_thinking : Bool) : List Message × Option String :=
  process_ai_response client gateway current_time
    (history ++ [{ role := "user", content := user_input, thinking := none }])
    enable_web_search show_thinking

/-- The two messages a successful turn appends: the submitted user message and
the built assistant message. -/
def turn_pair (client : Client) (show_thinking : Bool)
    (p : String × RespMessage) : List Message :=
  [{ role := "user", content := p.1, thinking := none },
   build_assistant_message client p.2 show_thinking]

/-- Concatenation of the per-turn appends of a sequence of successful turns. -/
def turns_flatten (client : Client) (show_thinking : Bool) :
    List (String × RespMessage) → List Message
  | [] => []
  | p :: rest => turn_pair client show_thinking p ++ turns_flatten client show_thinking rest

/-- A sequence of turns that each complete successfully: each turn submits an
input and the gateway returns the given response message. -/
def run_turns (client : Client) (current_time : String)
    (enable_web_search show_thinking : Bool) :
    List Message → List (String × RespMessage) → List Message
  | history, [] => history
  | history, (input, resp) :: rest =>
      run_turns client current_time enable_web_search show_thinking
        ((run_turn client (fun _ _ _ _ => Except.ok resp) current_time history input
            enable_web_search show_thinking).1)
        rest

/-- Strict user/assistant alternation of a history, user first. -/
def alternating_roles : List Message → Bool
  | [] => true
  | u :: a :: rest => u.role == "user" && a.role == "assistant" && alternating_roles rest
  | [_] => false

/-! Concrete fixtures used by witnesses and counterexamples. -/

/-- A client whose `web_search` returns `"Sunny, 25C"` (Scenario A of the
spec) and whose `web_fetch` returns a short page; no further attributes. -/
def sunny_client : Client :=
  { web_search := fun _ => Except.ok "Sunny, 25C",
    web_fetch := fun _ => Except.ok "page text",
    otherAttrs := [] }

/-- A client whose `web_fetch` raises `"timeout"` (Scenario C of the spec). -/
def timeout_client : Client :=
  { web_search := fun _ => Except.ok "Sunny, 25C",
    web_fetch := fun _ => Except.error "timeout",
    otherAttrs := [] }

/-- A 2001-character result string, to exercise truncation. -/
def long_string : String := String.mk (List.replicate 2001 'a')

/-- A client whose `web_search` returns the 2001-character `long_string`. -/
def long_client : Client :=
  { web_search := fun _ => Except.ok long_string,
    web_fetch := fun _ => Except.ok "",
    otherAttrs := [] }

/-- The Scenario A tool call `web_search({query: "weather today"})`. -/
def ws_call : ToolCall := { function := { name := "web_search", arguments := [("query", "weather today")] } }

/-- The Scenario C tool call `web_fetch({url: ...})`. -/
def fetch_call : ToolCall := { function := { name := "web_fetch", arguments := [("url", "https://example.com")] } }

/-- A tool call whose name resolves to no client attribute. -/
def bogus_call : ToolCall := { function := { name := "bogus_tool", arguments := [] } }

/-- Scenario A response: empty content, one `web_search` call. -/
def respA : RespMessage := { content := some "", thinking := none, tool_calls := [ws_call] }

/-- Scenario C response: some content, one `web_fetch` call. -/
def respC : RespMessage := { content := some "Checked.", thinking := none, tool_calls := [fetch_call] }

/-- A response carrying only an unresolvable tool call. -/
def respBogus : RespMessage := { content := some "hello", thinking := none, tool_calls := [bogus_call] }

/-- A response with `content = None` and no tool calls. -/
def respNone : RespMessage := { content := none, thinking := none, tool_calls := [] }

/-- A plain successful response with no tool calls. -/
def respPlain : RespMessage := { content := some "hi", thinking := some "because", tool_calls := [] }

/-! Helper lemmas shared between the claim proofs. -/

theorem build_assistant_message_role (client : Client) (resp : RespMessage)
    (show_thinking : Bool) :
    (build_assistant_message client resp show_thinking).role = "assistant" := rfl

theorem mem_process_ai_response (client : Client) (gateway : Gateway)
    (current_time : String) (history : List Message)
    (enable_web_search show_thinking : Bool) :
    ∀ m ∈ (process_ai_response client gateway current_time history
        enable_web_search show_thinking).1,
      m ∈ history ∨ m.role = "assistant" := by
  intro m hm
  unfold process_ai_response at hm
  cases hgw : gateway "qwen3:4b" (api_messages current_time history)
      (get_available_tools client enable_web_search) show_thinking with
  | ok resp =>
      rw [hgw] at hm
      simp only [List.mem_append, List.mem_singleton] at hm
      rcases hm with hm | hm
      · exact Or.inl hm
      · exact Or.inr (by rw [hm]; rfl)
  | error e =>
      rw [hgw] at hm
      exact Or.inl hm

theorem run_turns_eq_flatten (client : Client) (current_time : String)
    (enable_web_search show_thinking : Bool) (turns : List (String × RespMessage)) :
    ∀ history : List Message,
      run_turns client current_time enable_web_search show_thinking history turns
        = history ++ turns_flatten client show_thinking turns := by
  induction turns with
  | nil => intro history; simp [run_turns, turns_flatten]
  | cons p rest ih =>
      intro history
      obtain ⟨input, resp⟩ := p
      rw [run_turns, ih]
      simp [run_turn, process_ai_response, turns_flatten, turn_pair]

theorem turns_flatten_length (client : Client) (show_thinking : Bool)
    (turns : List (String × RespMessage)) :
    (turns_flatten client show_thinking turns).length = 2 * turns.length := by
  induction turns with
  | nil => rfl
  | cons p rest ih =>
      simp [turns_flatten, turn_pair, ih]
      omega

theorem turns_flatten_alternating (client : Client) (show_thinking : Bool)
    (turns : List (String × RespMessage)) :
    alternating_roles (turns_flatten client show_thinking turns) = true := by
  induction turns with
  | nil => rfl
  | cons p rest ih =>
      simp only [turns_flatten, turn_pair, List.cons_append, List.nil_append,
        alternating_roles]
      simp [build_assistant_message_role, ih]

/-! Claim theorems. -/

/-- C1: when the gateway chat call fails on a turn, the history after the turn
equals the history before the turn plus exactly the one user message appended
on submission — no assistant message is appended, no existing entry changes,
and the error is reported. -/
theorem gateway_failure_preserves_history (client : Client) (gateway : Gateway)
    (current_time user_input e : String) (history : List Message)
    (enable_web_search show_thinking : Bool)
    (hgw : gateway "qwen3:4b"
        (api_messages current_time
          (history ++ [{ role := "user", content := user_input, thinking := none }]))
        (get_available_tools client enable_web_search) show_thinking
      = Except.error e) :
    run_turn client gateway current_time history user_input
        enable_web_search show_thinking
      = (history ++ [{ role := "user", content := user_input, thinking := none }],
         some ("Error getting AI response: " ++ e)) := by
  unfold run_turn process_ai_response
  rw [hgw]

/-- Witness for C1 at a concrete failing gateway. -/
theorem gateway_failure_preserves_history_witness :
    run_turn sunny_client (fun _ _ _ _ => Except.error "boom") "T" [] "hi" true false
      = ([{ role := "user", content := "hi", thinking := none }],
         some "Error getting AI response: boom") := by
  have h := gateway_failure_preserves_history sunny_client
    (fun _ _ _ _ => Except.error "boom") "T" "hi" "boom" [] true false rfl
  exact h.trans (by decide)

/-- C3: a successful tool invocation is formatted as the `**<name>**:` header
followed by the result string verbatim when it has at most 2000 characters
(nothing else, in particular no truncation marker, is appended), and as the
header followed by exactly the first 2000 characters plus the truncation
marker when it is longer. -/
theorem tool_result_truncation (client : Client) (tc : ToolCall) (fn : ToolFn)
    (s : String)
    (hfn : Client.getattr client tc.function.name = some fn)
    (hok : fn tc.function.arguments = Except.ok s) :
    dispatch_call client tc = some (format_result tc.function.name s) ∧
    (s.length ≤ 2000 →
      format_result tc.function.name s = "**" ++ tc.function.name ++ "**:\n" ++ s) ∧
    (2000 < s.length →
      format_result tc.function.name s
        = "**" ++ tc.function.name ++ "**:\n" ++ s.take 2000 ++
            "...\n\n*[Result truncated - showing first 2000 characters]*") := by
  refine ⟨?_, ?_, ?_⟩
  · simp only [dispatch_call, hfn, hok]
  · intro hle
    unfold format_result
    rw [if_neg (by omega)]
  · intro hgt
    unfold format_result
    rw [if_pos hgt]

/-- Witness for C3: a short result renders verbatim, a 2001-character result
is truncated with the marker. -/
theorem tool_result_truncation_witness :
    dispatch_call sunny_client ws_call = some "**web_search**:\nSunny, 25C" ∧
    format_result "web_search" long_string
      = "**web_search**:\n" ++ long_string.take 2000 ++
          "...\n\n*[Result truncated - showing first 2000 characters]*" := by
  constructor
  · have h := tool_result_truncation sunny_client ws_call sunny_client.web_search
      "Sunny, 25C" rfl rfl
    have h2 := h.2.1 (by decide)
    exact h.1.trans (by rw [h2]; decide)
  · have hlen : 2000 < long_string.length := by
      have : long_string.length = 2001 := List.length_replicate 2001 'a'
      omega
    exact (tool_result_truncation long_client ws_call long_client.web_search
      long_string rfl rfl).2.2 hlen

/-- C10: a gateway response whose `content` field is `None` yields an
assistant message built from the empty base content; with no tool calls its
content is exactly `""`, and the turn still commits normally (exactly one
assistant message appended, no error reported). -/
theorem none_content_commits (client : Client) (resp : RespMessage)
    (current_time : String) (history : List Message)
    (enable_web_search show_thinking : Bool)
    (hc : resp.content = none) :
    orEmpty resp.content = "" ∧
    (resp.tool_calls = [] →
      (build_assistant_message client resp show_thinking).content = "") ∧
    process_ai_response client (fun _ _ _ _ => Except.ok resp) current_time history
        enable_web_search show_thinking
      = (history ++ [build_assistant_message client resp show_thinking], none) := by
  refine ⟨by rw [hc]; rfl, ?_, rfl⟩
  intro ht
  simp [build_assistant_message, ht, hc, orEmpty]

/-- Witness for C10 at a concrete `content = None` response. -/
theorem none_content_commits_witness :
    orEmpty respNone.content = "" ∧
    (build_assistant_message sunny_client respNone false).content = "" ∧
    process_ai_response sunny_client (fun _ _ _ _ => Except.ok respNone) "T" [] true false
      = ([build_assistant_message sunny_client respNone false], none) := by
  have h := none_content_commits sunny_client respNone "T" [] true false rfl
  exact ⟨h.1, h.2.1 rfl, h.2.2⟩

/-- C5: tool calls in one turn are processed independently — a raised
invocation error yields the `**<name> Error**: <errorText>` block for that
call only, the sibling calls before and after it keep exactly their own
results, and the turn still commits the assistant message whose content is
the model content plus the formatted blocks. -/
theorem tool_call_isolation (client : Client) (xs ys : List ToolCall)
    (tc : ToolCall) (fn : ToolFn) (e : String) (resp : RespMessage)
    (history : List Message) (current_time : String)
    (enable_web_search show_thinking : Bool)
    (hfn : Client.getattr client tc.function.name = some fn)
    (herr : fn tc.function.arguments = Except.error e)
    (hcalls : resp.tool_calls = xs ++ tc :: ys) :
    tool_results client resp.tool_calls
      = tool_results client xs ++
          ("**" ++ tc.function.name ++ " Error**: " ++ e) :: tool_results client ys ∧
    (build_assistant_message client resp show_thinking).content
      = orEmpty resp.content ++ "\n\n---\n\n**🔍 Tool Results:**\n\n" ++
          String.intercalate "\n\n---\n\n" (tool_results client resp.tool_calls) ∧
    process_ai_response client (fun _ _ _ _ => Except.ok resp) current_time history
        enable_web_search show_thinking
      = (history ++ [build_assistant_message client resp show_thinking], none) := by
  have hdisp : dispatch_call client tc
      = some ("**" ++ tc.function.name ++ " Error**: " ++ e) := by
    simp only [dispatch_call, hfn, herr]
  have hres : tool_results client resp.tool_calls
      = tool_results client xs ++
          ("**" ++ tc.function.name ++ " Error**: " ++ e) :: tool_results client ys := by
    rw [hcalls]
    unfold tool_results
    rw [List.filterMap_append]
    simp [List.filterMap_cons, hdisp]
  refine ⟨hres, ?_, rfl⟩
  have hnc : resp.tool_calls ≠ [] := by
    rw [hcalls]
    simp
  have hne : tool_results client resp.tool_calls ≠ [] := by
    rw [hres]
    simp
  simp only [build_assistant_message, merge_tool_results]
  rw [if_neg hnc, if_neg hne]

/-- Witness for C5: Scenario C of the spec — one `web_fetch` call raising
`"timeout"` produces the `**web_fetch Error**: timeout` block and the
assistant message still commits with the model content plus the block. -/
theorem tool_call_isolation_witness :
    tool_results timeout_client respC.tool_calls = ["**web_fetch Error**: timeout"] ∧
    (build_assistant_message timeout_client respC false).content
      = "Checked.\n\n---\n\n**🔍 Tool Results:**\n\n**web_fetch Error**: timeout" ∧
    process_ai_response timeout_client (fun _ _ _ _ => Except.ok respC) "T" [] true false
      = ([build_assistant_message timeout_client respC false], none) := by
  have h := tool_call_isolation timeout_client [] [] fetch_call
    timeout_client.web_fetch "timeout" respC [] "T" true false rfl rfl rfl
  exact ⟨h.1.trans (by decide), h.2.1.trans (by decide), h.2.2⟩

/-- C9: when at least one tool-result block is produced, the committed
assistant content is the model content, the blank-line-delimited `---`
divider, the `🔍 Tool Results` heading, and the blocks joined with `---`
separators; dispatch preserves the order the calls were received
(it distributes over concatenation of call lists). -/
theorem merged_content_format (client : Client) (resp : RespMessage)
    (show_thinking : Bool)
    (hne : tool_results client resp.tool_calls ≠ []) :
    (build_assistant_message client resp show_thinking).content
      = orEmpty resp.content ++ "\n\n---\n\n**🔍 Tool Results:**\n\n" ++
          String.intercalate "\n\n---\n\n" (tool_results client resp.tool_calls) ∧
    ∀ xs ys : List ToolCall,
      tool_results client (xs ++ ys) = tool_results client xs ++ tool_results client ys := by
  constructor
  · have hnc : resp.tool_calls ≠ [] := by
      intro hx
      apply hne
      rw [hx]
      rfl
    simp only [build_assistant_message, merge_tool_results]
    rw [if_neg hnc, if_neg hne]
  · intro xs ys
    unfold tool_results
    exact List.filterMap_append xs ys (dispatch_call client)

/-- Witness for C9: Scenario A of the spec — empty model content, one
`web_search` call returning `"Sunny, 25C"`; the final content is the divider,
the heading and the single `**web_search**:` block. -/
theorem merged_content_format_witness :
    tool_results sunny_client respA.tool_calls ≠ [] ∧
    (build_assistant_message sunny_client respA false).content
      = "\n\n---\n\n**🔍 Tool Results:**\n\n**web_search**:\nSunny, 25C" := by
  have hne : tool_results sunny_client respA.tool_calls ≠ [] := by decide
  exact ⟨hne, ((merged_content_format sunny_client respA false hne).1).trans (by decide)⟩

/-- C2, counterexample: the claim says a tool call whose name does not resolve
produces a `**<name> Error**: ...` block in the merged results. On the code it
does not: the dispatch loop has no else branch for a failed `getattr`, so the
call `bogus_tool` contributes nothing — the results list is empty and the
committed assistant content is exactly the model content `"hello"`, with no
error block of any form. -/
theorem unresolved_tool_error_block_cex :
    tool_results sunny_client respBogus.tool_calls = [] ∧
    build_assistant_message sunny_client respBogus false
      = { role := "assistant", content := "hello", thinking := none } ∧
    process_ai_response sunny_client (fun _ _ _ _ => Except.ok respBogus) "T" [] true false
      = ([{ role := "assistant", content := "hello", thinking := none }], none) := by
  refine ⟨rfl, by decide, by decide⟩

/-- C2, amended: a tool call whose name does not resolve on the client is
silently skipped — dispatch yields no block at all for it and the sibling
results are unchanged — while the turn still commits a successful assistant
message. -/
theorem unresolved_tool_silently_skipped (client : Client) (tc : ToolCall)
    (resp : RespMessage) (history : List Message) (current_time : String)
    (enable_web_search show_thinking : Bool)
    (h : Client.getattr client tc.function.name = none) :
    dispatch_call client tc = none ∧
    (∀ xs ys : List ToolCall,
      tool_results client (xs ++ tc :: ys) = tool_results client (xs ++ ys)) ∧
    process_ai_response client (fun _ _ _ _ => Except.ok resp) current_time history
        enable_web_search show_thinking
      = (history ++ [build_assistant_message client resp show_thinking], none) := by
  have hd : dispatch_call client tc = none := by
    simp only [dispatch_call, h]
  refine ⟨hd, ?_, rfl⟩
  intro xs ys
  unfold tool_results
  rw [List.filterMap_append, List.filterMap_append]
  simp [List.filterMap_cons, hd]

/-- Witness for the amended C2 at the concrete unresolvable call. -/
theorem unresolved_tool_silently_skipped_witness :
    dispatch_call sunny_client bogus_call = none ∧
    tool_results sunny_client ([ws_call] ++ bogus_call :: [])
      = tool_results sunny_client ([ws_call] ++ []) ∧
    process_ai_response sunny_client (fun _ _ _ _ => Except.ok respBogus) "X" [] false false
      = ([build_assistant_message sunny_client respBogus false], none) := by
  have h := unresolved_tool_silently_skipped sunny_client bogus_call respBogus
    [] "X" false false rfl
  exact ⟨h.1, h.2.1 [ws_call] [], h.2.2⟩

/-- C4, counterexample: the claim says that when web capabilities are disabled
no tool name resolves during dispatch. On the code, name lookup is
`getattr(client, name, None)` and never consults the toggle: with web search
disabled (the gateway is given the empty tool list) a `web_search` tool call
still resolves, is invoked, and its result block is committed. -/
theorem registry_disabled_still_resolves_cex :
    get_available_tools sunny_client false = [] ∧
    (dispatch_call sunny_client ws_call).isSome = true ∧
    process_ai_response sunny_client (fun _ _ _ _ => Except.ok respA) "T" [] false false
      = ([{ role := "assistant",
            content := "\n\n---\n\n**🔍 Tool Results:**\n\n**web_search**:\nSunny, 25C",
            thinking := none }], none) := by
  refine ⟨rfl, rfl, by decide⟩

/-- C4, amended: `get_available_tools` advertises exactly `web_search` and
`web_fetch` to the gateway when web search is enabled and nothing when it is
disabled, but name resolution during dispatch is independent of that toggle:
a name resolves exactly when it is `web_search`, `web_fetch`, or any other
attribute of the client object, and dispatch produces a block exactly when the
name resolves. -/
theorem dispatch_resolution_ignores_toggle (client : Client) (name : String)
    (args : Args) (enable_web_search : Bool) :
    (Client.getattr client name).isSome
      = (name == "web_search" || name == "web_fetch" ||
          (client.otherAttrs.lookup name).isSome) ∧
    get_available_tools client enable_web_search
      = (if enable_web_search then [client.web_search, client.web_fetch] else []) ∧
    (dispatch_call client { function := { name := name, arguments := args } }).isSome
      = (Client.getattr client name).isSome := by
  refine ⟨?_, rfl, ?_⟩
  · by_cases h1 : name = "web_search"
    · subst h1
      simp [Client.getattr]
    · by_cases h2 : name = "web_fetch"
      · subst h2
        simp [Client.getattr]
      · unfold Client.getattr
        rw [if_neg h1, if_neg h2]
        have e1 : (name == "web_search") = false := by simp [h1]
        have e2 : (name == "web_fetch") = false := by simp [h2]
        rw [e1, e2, Bool.false_or, Bool.false_or]
  · cases h : Client.getattr client name with
    | none => simp [dispatch_call, h]
    | some fn =>
        cases hfa : fn args with
        | ok v => simp [dispatch_call, h, hfa]
        | error e => simp [dispatch_call, h, hfa]

/-- C6: any sequence of N turns that each complete successfully yields a
history of exactly the 2N submitted/built messages in submission order
(nothing reordered, mutated or removed), hence of length 2N and strictly
alternating user then assistant. -/
theorem successful_turns_history_shape (client : Client) (current_time : String)
    (enable_web_search show_thinking : Bool)
    (turns : List (String × RespMessage)) :
    run_turns client current_time enable_web_search show_thinking [] turns
      = turns_flatten client show_thinking turns ∧
    (run_turns client current_time enable_web_search show_thinking [] turns).length
      = 2 * turns.length ∧
    alternating_roles
        (run_turns client current_time enable_web_search show_thinking [] turns)
      = true := by
  have h := run_turns_eq_flatten client current_time enable_web_search show_thinking turns []
  rw [List.nil_append] at h
  refine ⟨h, ?_, ?_⟩
  · rw [h]
    exact turns_flatten_length client show_thinking turns
  · rw [h]
    exact turns_flatten_alternating client show_thinking turns

/-- C7: after any turn, successful or failed, no stored message has role
`system` — the per-turn system message only enters the outgoing request and is
never appended to the session history. -/
theorem no_system_role_stored (client : Client) (gateway : Gateway)
    (current_time user_input : String) (history : List Message)
    (enable_web_search show_thinking : Bool)
    (hh : ∀ m ∈ history, m.role ≠ "system") :
    ∀ m ∈ (run_turn client gateway current_time history user_input
        enable_web_search show_thinking).1,
      m.role ≠ "system" := by
  intro m hm
  unfold run_turn at hm
  rcases mem_process_ai_response client gateway current_time
      (history ++ [{ role := "user", content := user_input, thinking := none }])
      enable_web_search show_thinking m hm with h1 | h1
  · rcases List.mem_append.mp h1 with h2 | h2
    · exact hh m h2
    · rw [List.mem_singleton] at h2
      rw [h2]
      show "user" ≠ "system"
      decide
  · rw [h1]
    decide

/-- Witness for C7 at a concrete turn starting from the empty history. -/
theorem no_system_role_stored_witness :
    (Message.mk "user" "hi" none).role ≠ "system" := by
  have h := no_system_role_stored sunny_client (fun _ _ _ _ => Except.ok respPlain)
    "T" "hi" [] true false (by simp)
  exact h (Message.mk "user" "hi" none) (by decide)

/-- C8: the message list sent to the gateway is the synthesized system message
followed by every stored entry projected to exactly its role and content; no
stored `thinking` field appears anywhere in the outgoing request. -/
theorem api_projection_no_thinking (current_time : String) (history : List Message) :
    api_messages current_time history
      = system_message current_time ::
          history.map (fun m => { role := m.role, content := m.content, thinking := none }) ∧
    (api_messages current_time history).all (fun m => m.thinking == none) = true := by
  refine ⟨rfl, ?_⟩
  rw [List.all_eq_true]
  intro m hm
  unfold api_messages at hm
  rcases List.mem_append.mp hm with h1 | h1
  · rw [List.mem_singleton] at h1
    rw [h1]
    rfl
  · obtain ⟨x, -, rfl⟩ := List.mem_map.mp h1
    rfl
